import Mathlib

/-!
Shallow embedding of the rg3d frame renderer orchestrator
(`src/renderer/mod.rs`) and the editor particle-system property handler
(`src/inspector/handlers/particle_system.rs`).

Pure data is translated directly; GPU side effects are modelled as an
explicit trace of pass events; wall-clock instants are rationals; the
fallibility of external subsystems (UI renderer, buffer swap, G-Buffer
creation, GPU texture creation) is modelled by boolean/Option-valued
parameters, since those subsystems' bodies are outside the sources.
Rust panics (`unwrap`) are modelled by an `Option` result, `none` = abort.
-/

namespace Rg3d

/-- Modelled from the spec: scene-graph node classification. The node type
lives in the external scene crate; the renderer only needs the "is this a
camera" classification and the `Node::Camera` payload
(spec §6: "a per-node is-this-a-camera classification"). -/
inductive Node where
  | camera (id : Nat)
  | mesh (id : Nat)
  | light (id : Nat)
  | particleSystem (id : Nat)
  | sprite (id : Nat)
  deriving DecidableEq, Repr

/-- `Node::is_camera` — true exactly on the `Camera` variant. -/
def Node.is_camera : Node → Bool
  | .camera _ => true
  | _ => false

/-- A scene exposes its node graph via linear iteration (`graph.linear_iter()`). -/
structure Scene where
  graph : List Node
  deriving DecidableEq, Repr

/-- `Renderer::render`'s camera lookup for one scene:
`graph.linear_iter().find(|node| node.is_camera())` followed by the
`Node::Camera(camera) => camera, _ => continue` match. -/
def findCamera (graph : List Node) : Option Nat :=
  match graph.find? Node.is_camera with
  | some (Node.camera c) => some c
  | some _ => none
  | none => none

/-- Statistics with instants/durations as rationals
(`std::time::Instant` / `as_secs_f32`). -/
structure Statistics where
  pure_frame_time : ℚ
  capped_frame_time : ℚ
  frames_per_second : Nat
  frame_counter : Nat
  frame_start_time : ℚ
  last_fps_commit_time : ℚ
  deriving DecidableEq, Repr

/-- `Statistics::begin_frame`: records the frame start timestamp. -/
def Statistics.begin_frame (s : Statistics) (now : ℚ) : Statistics :=
  { s with frame_start_time := now }

/-- `Statistics::end_frame`: records pure frame time, bumps the per-window
frame counter, and on a ≥ 1 second window rollover commits the counter into
`frames_per_second` and resets it. -/
def Statistics.end_frame (s : Statistics) (now : ℚ) : Statistics :=
  let s1 : Statistics :=
    { s with pure_frame_time := now - s.frame_start_time
             frame_counter := s.frame_counter + 1 }
  if now - s1.last_fps_commit_time ≥ 1 then
    { s1 with last_fps_commit_time := now
              frames_per_second := s1.frame_counter
              frame_counter := 0 }
  else
    s1

/-- `Statistics::finalize`: records capped frame time (after buffer swap). -/
def Statistics.finalize (s : Statistics) (now : ℚ) : Statistics :=
  { s with capped_frame_time := now - s.frame_start_time }

/-- `Statistics::default` at construction instant `now`: both timestamps are
`Instant::now()`, all counters zero. -/
def Statistics.mkDefault (now : ℚ) : Statistics :=
  { pure_frame_time := 0
    capped_frame_time := 0
    frames_per_second := 0
    frame_counter := 0
    frame_start_time := now
    last_fps_commit_time := now }

/-- Modelled from the spec: the G-Buffer frame target is a GPU-resident
surface "sized to the window; recreated whenever the output size changes"
(spec §3); `GBuffer::new` itself lives outside the given sources. -/
structure GBuffer where
  size : Nat × Nat
  deriving DecidableEq, Repr

/-- Modelled from the spec: `GBuffer::new(size)` creates a frame target of
exactly the requested size (its fallibility is a caller-side parameter). -/
def GBuffer.new (size : Nat × Nat) : GBuffer :=
  { size := size }

/-- Renderer error taxonomy as the claims need it: errors from the UI pass
and frame-resource (G-Buffer recreation) errors. -/
inductive RendererError where
  | uiRenderError
  | frameResourceError
  deriving DecidableEq, Repr

/-- RGBA color (`rg3d_core::color::Color`). -/
structure Color where
  r : Nat
  g : Nat
  b : Nat
  a : Nat
  deriving DecidableEq, Repr

/-- The renderer state, restricted to the fields the claims observe.
The pass objects, dummy textures and quad are immutable after
construction and carry no claim-relevant state. -/
structure Renderer where
  gbuffer : GBuffer
  statistics : Statistics
  frame_size : Nat × Nat
  ambient_color : Color
  deriving DecidableEq, Repr

/-- `Renderer::get_statistics`. -/
def Renderer.get_statistics (r : Renderer) : Statistics :=
  r.statistics

/-- `Renderer::get_frame_size`. -/
def Renderer.get_frame_size (r : Renderer) : Nat × Nat :=
  r.frame_size

/-- `Renderer::set_frame_size`: stores the new size, then recreates the
G-Buffer; `ok` models whether `GBuffer::new` succeeds. The third component
lists the frame targets released by the call (Rust drops the old G-Buffer
at the field assignment, on success only). -/
def Renderer.set_frame_size (r : Renderer) (new_size : Nat × Nat) (ok : Bool) :
    Renderer × Except RendererError Unit × List GBuffer :=
  let r1 : Renderer := { r with frame_size := new_size }
  if ok then
    ({ r1 with gbuffer := GBuffer.new new_size }, Except.ok (), [r.gbuffer])
  else
    (r1, Except.error RendererError.frameResourceError, [])

/-- GPU pass / frame-stage events, in the orchestrator's vocabulary.
Scene-local passes carry the scene's index in the scene container. -/
inductive PassEvent where
  | beginFrame
  | gbufferFill (sceneIdx : Nat)
  | lighting (sceneIdx : Nat)
  | particlePass
  | spritePass
  | finalBlit
  | uiPass
  | endFrame
  | present
  | finalize
  deriving DecidableEq, Repr

/-- The per-scene loop of `Renderer::render`: for each (index, scene),
look up the camera; `continue` on a scene without one, otherwise run the
G-Buffer fill followed immediately by the deferred lighting pass. -/
def renderScenesLoop : List (Nat × Scene) → List PassEvent
  | [] => []
  | (i, s) :: rest =>
    match findCamera s.graph with
    | none => renderScenesLoop rest
    | some _ => PassEvent.gbufferFill i :: PassEvent.lighting i :: renderScenesLoop rest

/-- Result of one `Renderer::render` call: successor state, the trace of
frame stages executed, the emitted log lines, and the returned `Result`. -/
structure RenderOutcome where
  state : Renderer
  trace : List PassEvent
  logs : List String
  result : Except RendererError Unit
  deriving Repr

/-- `Renderer::render`. `uiOk` models the result of the external
`UIRenderer::render` call (`?`-propagated), `swapOk` the result of
`context.swap_buffers()` (logged only). `tBegin`, `tEnd`, `tFin` are the
instants sampled by the three statistics calls. The trace mirrors the
statement order of the source: begin-frame timing, the per-scene
G-Buffer/lighting loop, the particle pass, the sprite pass, the final
composite blit, the UI pass, and — only if the UI pass succeeded —
statistics end-of-frame, the buffer swap, and statistics finalize. -/
def Renderer.render (r : Renderer) (scenes : List Scene)
    (uiOk swapOk : Bool) (tBegin tEnd tFin : ℚ) : RenderOutcome :=
  let stats1 := r.statistics.begin_frame tBegin
  let evs := PassEvent.beginFrame ::
    (renderScenesLoop scenes.enum ++
      [PassEvent.particlePass, PassEvent.spritePass,
       PassEvent.finalBlit, PassEvent.uiPass])
  if uiOk then
    let stats2 := stats1.end_frame tEnd
    let stats3 := stats2.finalize tFin
    { state := { r with statistics := stats3 }
      trace := evs ++ [PassEvent.endFrame, PassEvent.present, PassEvent.finalize]
      logs := if swapOk then [] else ["Failed to swap buffers!"]
      result := Except.ok () }
  else
    { state := { r with statistics := stats1 }
      trace := evs
      logs := []
      result := Except.error RendererError.uiRenderError }

/-! ### `Renderer::upload_resources` (`src/renderer/mod.rs:186-197`) -/

/-- A GPU-side texture handle, the claim-relevant part
(`renderer::gpu_texture::GpuTexture`): the upload's source dimensions,
bytes, and the anisotropy flag set by `set_max_anisotropy`. -/
structure GpuTexture where
  width : Nat
  height : Nat
  bytes : List Nat
  maxAnisotropy : Bool
  deriving DecidableEq, Repr

/-- A CPU-side texture resource as held by the resource manager: decoded
pixel data plus the lazily filled `gpu_tex` slot. -/
structure Texture where
  width : Nat
  height : Nat
  bytes : List Nat
  gpu_tex : Option GpuTexture
  deriving DecidableEq, Repr

/-- The environment for `upload_resources`: whether `GpuTexture::new`
succeeds on the given dimensions/bytes (modelled from the spec:
"fails with `ResourceCreationError` if the backend rejects the
format/size combination", §4.1; its body is outside the sources). -/
def GpuTexture.new (accepts : Nat → Nat → List Nat → Bool)
    (width height : Nat) (bytes : List Nat) : Option GpuTexture :=
  if accepts width height bytes then
    some { width := width, height := height, bytes := bytes, maxAnisotropy := false }
  else
    none

/-- `GpuTexture::set_max_anisotropy`. -/
def GpuTexture.set_max_anisotropy (g : GpuTexture) : GpuTexture :=
  { g with maxAnisotropy := true }

/-- One iteration of the `upload_resources` loop body on one texture:
a no-op for an already GPU-resident texture, otherwise creates the GPU
texture (`.unwrap()` — `none` models the panic), enables max anisotropy
and stores it. The `Nat` counts GPU uploads performed (0 or 1). -/
def uploadTexture (accepts : Nat → Nat → List Nat → Bool) (t : Texture) :
    Option (Texture × Nat) :=
  match t.gpu_tex with
  | some _ => some (t, 0)
  | none =>
    match GpuTexture.new accepts t.width t.height t.bytes with
    | some g => some ({ t with gpu_tex := some g.set_max_anisotropy }, 1)
    | none => none

/-- `Renderer::upload_resources` over the resource manager's texture list:
processes each texture in order; `none` models the program aborting at the
first `unwrap` panic. On success returns the updated textures and the total
number of GPU uploads performed. -/
def upload_resources (accepts : Nat → Nat → List Nat → Bool) :
    List Texture → Option (List Texture × Nat)
  | [] => some ([], 0)
  | t :: rest =>
    match uploadTexture accepts t with
    | none => none
    | some (t1, n) =>
      match upload_resources accepts rest with
      | none => none
      | some (rest1, m) => some (t1 :: rest1, n + m)

/-! ### Editor particle-system property handler
(`src/inspector/handlers/particle_system.rs`) -/

/-- 3-component vector (`rg3d_core::math::vec3::Vec3`) with rational
components standing for the `f32`s. -/
structure Vec3 where
  x : ℚ
  y : ℚ
  z : ℚ
  deriving DecidableEq, Repr

/-- Modelled from the spec: the typed payload carried by an object-field
property change. `cast_value::<T>()` downcasts succeed exactly when the
payload has type `T`; the payload types are those the handler casts to
(`Option<Texture>`, `Vec3`, `bool`, `f32`). A texture resource is
identified by a `Nat` handle. -/
inductive ObjectValue where
  | textureOpt (t : Option Nat)
  | vector (v : Vec3)
  | boolean (b : Bool)
  | float (f : ℚ)
  deriving DecidableEq, Repr

/-- `value.cast_value::<Option<Texture>>()`. -/
def ObjectValue.castTextureOpt : ObjectValue → Option (Option Nat)
  | .textureOpt t => some t
  | _ => none

/-- `value.cast_value::<Vec3>()`. -/
def ObjectValue.castVec3 : ObjectValue → Option Vec3
  | .vector v => some v
  | _ => none

/-- `value.cast_value::<bool>()`. -/
def ObjectValue.castBool : ObjectValue → Option Bool
  | .boolean b => some b
  | _ => none

/-- `value.cast_value::<f32>()`. -/
def ObjectValue.castFloat : ObjectValue → Option ℚ
  | .float f => some f
  | _ => none

/-- `rg3d::gui::message::CollectionChanged`. -/
inductive CollectionChanged where
  | add
  | remove (index : Nat)
  | itemChanged (index : Nat) (value : ObjectValue)
  deriving DecidableEq, Repr

/-- `rg3d::gui::message::FieldKind`, the variants the handler matches on
plus a catch-all for its `_ => {}` arm. -/
inductive FieldKind where
  | object (value : ObjectValue)
  | collection (changed : CollectionChanged)
  | inspectable
  deriving DecidableEq, Repr

/-- `rg3d::gui::message::PropertyChanged`. -/
structure PropertyChanged where
  name : String
  value : FieldKind
  deriving DecidableEq, Repr

namespace ParticleSystem

/-- Modelled from the spec: the particle-system property-name constants
(`ParticleSystem::TEXTURE` etc., defined in the external scene crate);
what the handler relies on is their values being pairwise distinct. -/
def TEXTURE : String := "texture"

/-- Modelled from the spec: `ParticleSystem::ACCELERATION`. -/
def ACCELERATION : String := "acceleration"

/-- Modelled from the spec: `ParticleSystem::ENABLED`. -/
def ENABLED : String := "enabled"

/-- Modelled from the spec: `ParticleSystem::SOFT_BOUNDARY_SHARPNESS_FACTOR`. -/
def SOFT_BOUNDARY_SHARPNESS_FACTOR : String := "soft_boundary_sharpness_factor"

/-- Modelled from the spec: `ParticleSystem::EMITTERS`. -/
def EMITTERS : String := "emitters"

end ParticleSystem

/-- The undoable scene commands the handler can construct, with their
constructor arguments (`node_handle` is a `Nat` handle). -/
inductive SceneCommand where
  | setParticleSystemTexture (node : Nat) (texture : Option Nat)
  | setParticleSystemAcceleration (node : Nat) (value : Vec3)
  | setParticleSystemEnabled (node : Nat) (value : Bool)
  | setSoftBoundarySharpnessFactor (node : Nat) (value : ℚ)
  | deleteEmitter (node : Nat) (index : Nat)
  deriving DecidableEq, Repr

/-- Observable effects of one `ParticleSystemHandler::handle` call. -/
inductive HandlerEffect where
  | doSceneCommand (c : SceneCommand)
  | openSelectorWindow
  | logUnhandled
  deriving DecidableEq, Repr

/-- `ParticleSystemHandler::handle`: dispatches a property-change
notification to the matching scene command / window action. The result is
the list of effects performed; `none` models the `unwrap` panic on a
failed `cast_value` downcast. -/
def ParticleSystemHandler.handle (node : Nat) (args : PropertyChanged) :
    Option (List HandlerEffect) :=
  match args.value with
  | .object value =>
    if args.name = ParticleSystem.TEXTURE then
      match value.castTextureOpt with
      | some t => some [.doSceneCommand (.setParticleSystemTexture node t)]
      | none => none
    else if args.name = ParticleSystem.ACCELERATION then
      match value.castVec3 with
      | some v => some [.doSceneCommand (.setParticleSystemAcceleration node v)]
      | none => none
    else if args.name = ParticleSystem.ENABLED then
      match value.castBool with
      | some b => some [.doSceneCommand (.setParticleSystemEnabled node b)]
      | none => none
    else if args.name = ParticleSystem.SOFT_BOUNDARY_SHARPNESS_FACTOR then
      match value.castFloat with
      | some f => some [.doSceneCommand (.setSoftBoundarySharpnessFactor node f)]
      | none => none
    else
      some [.logUnhandled]
  | .collection changed =>
    if args.name = ParticleSystem.EMITTERS then
      match changed with
      | .add => some [.openSelectorWindow]
      | .remove index => some [.doSceneCommand (.deleteEmitter node index)]
      | .itemChanged _ _ => some []
    else
      some []
  | .inspectable => some []

/-! ### Shared test fixtures and helper lemmas -/

/-- A concrete renderer state used by the concrete witness theorems. -/
def testRenderer : Renderer :=
  { gbuffer := GBuffer.new (800, 600)
    statistics := Statistics.mkDefault 0
    frame_size := (800, 600)
    ambient_color := { r := 100, g := 100, b := 100, a := 255 } }

theorem findCamera_eq_none {g : List Node}
    (h : ∀ n ∈ g, n.is_camera = false) : findCamera g = none := by
  have hf : g.find? Node.is_camera = none :=
    List.find?_eq_none.mpr (by intro n hn; simp [h n hn])
  simp [findCamera, hf]

theorem sceneIdx_mem_renderScenesLoop {i : Nat} {l : List (Nat × Scene)}
    (h : PassEvent.gbufferFill i ∈ renderScenesLoop l ∨
         PassEvent.lighting i ∈ renderScenesLoop l) :
    ∃ s : Scene, (i, s) ∈ l ∧ findCamera s.graph ≠ none := by
  induction l with
  | nil => simp [renderScenesLoop] at h
  | cons p rest ih =>
    obtain ⟨j, s⟩ := p
    cases hc : findCamera s.graph with
    | none =>
      simp only [renderScenesLoop, hc] at h
      obtain ⟨s', hm, hcam⟩ := ih h
      exact ⟨s', List.mem_cons_of_mem _ hm, hcam⟩
    | some c =>
      simp only [renderScenesLoop, hc, List.mem_cons] at h
      rcases h with (h | h | h) | (h | h | h)
      · cases h; exact ⟨s, List.mem_cons_self _ _, by simp [hc]⟩
      · cases h
      · obtain ⟨s', hm, hcam⟩ := ih (Or.inl h)
        exact ⟨s', List.mem_cons_of_mem _ hm, hcam⟩
      · cases h
      · cases h; exact ⟨s, List.mem_cons_self _ _, by simp [hc]⟩
      · obtain ⟨s', hm, hcam⟩ := ih (Or.inr h)
        exact ⟨s', List.mem_cons_of_mem _ hm, hcam⟩

theorem mem_renderScenesLoop_shape {e : PassEvent} {l : List (Nat × Scene)}
    (h : e ∈ renderScenesLoop l) :
    ∃ i, e = PassEvent.gbufferFill i ∨ e = PassEvent.lighting i := by
  induction l with
  | nil => simp [renderScenesLoop] at h
  | cons p rest ih =>
    obtain ⟨j, s⟩ := p
    cases hc : findCamera s.graph with
    | none =>
      simp only [renderScenesLoop, hc] at h
      exact ih h
    | some c =>
      simp only [renderScenesLoop, hc, List.mem_cons] at h
      rcases h with h | h | h
      · exact ⟨j, Or.inl h⟩
      · exact ⟨j, Or.inr h⟩
      · exact ih h

/-- C1: For every scene in the scene collection that contains no camera node,
`render` performs no G-Buffer fill and no deferred-lighting pass for that
scene, and the call's result does not depend on such a scene: it is `Ok`
exactly when the UI pass succeeds. The scene contributes nothing to the
frame. -/
theorem render_skips_scene_without_camera
    (r : Renderer) (scenes : List Scene) (uiOk swapOk : Bool) (tB tE tF : ℚ)
    (i : Nat) (s : Scene) (hs : scenes[i]? = some s)
    (hnc : ∀ n ∈ s.graph, n.is_camera = false) :
    PassEvent.gbufferFill i ∉ (r.render scenes uiOk swapOk tB tE tF).trace ∧
    PassEvent.lighting i ∉ (r.render scenes uiOk swapOk tB tE tF).trace ∧
    (r.render scenes uiOk swapOk tB tE tF).result =
      (if uiOk then Except.ok () else Except.error RendererError.uiRenderError) := by
  have hnone : findCamera s.graph = none := findCamera_eq_none hnc
  have key : ∀ h : PassEvent.gbufferFill i ∈ renderScenesLoop scenes.enum ∨
      PassEvent.lighting i ∈ renderScenesLoop scenes.enum, False := by
    intro h
    obtain ⟨s', hm, hcam⟩ := sceneIdx_mem_renderScenesLoop h
    have hg : scenes[i]? = some s' := List.mk_mem_enum_iff_getElem?.mp hm
    rw [hs] at hg
    exact hcam (Option.some.inj hg ▸ hnone)
  have h1 : PassEvent.gbufferFill i ∉ renderScenesLoop scenes.enum :=
    fun h => key (Or.inl h)
  have h2 : PassEvent.lighting i ∉ renderScenesLoop scenes.enum :=
    fun h => key (Or.inr h)
  cases uiOk <;>
    simp [Renderer.render, List.mem_cons, List.mem_append, h1, h2]

/-- C1 witness at a concrete camera-less scene. -/
theorem render_skips_scene_without_camera_witness :
    PassEvent.gbufferFill 0 ∉
      (testRenderer.render [⟨[Node.mesh 5]⟩] true true 0 0 0).trace :=
  (render_skips_scene_without_camera testRenderer [⟨[Node.mesh 5]⟩] true true
    0 0 0 0 ⟨[Node.mesh 5]⟩ rfl (by decide)).1

/-- The frame-stage order exactly as the specification words it: begin-frame
timing; then, for each scene that has a camera, the G-Buffer pass immediately
followed by the lighting pass for that scene; then, once across all scenes,
the particle pass, then the sprite pass, then the final composite blit, then
the UI pass; then — only reached when the UI pass succeeded — the
present-and-statistics group in the orchestrator's order (statistics
end-of-frame, buffer swap, statistics finalize). -/
def specPassOrder (scenes : List Scene) (uiOk : Bool) : List PassEvent :=
  [PassEvent.beginFrame] ++
    (scenes.enum.filter fun p => (findCamera p.2.graph).isSome).flatMap
      (fun p => [PassEvent.gbufferFill p.1, PassEvent.lighting p.1]) ++
    [PassEvent.particlePass, PassEvent.spritePass,
     PassEvent.finalBlit, PassEvent.uiPass] ++
    (if uiOk then [PassEvent.endFrame, PassEvent.present, PassEvent.finalize]
     else [])

theorem renderScenesLoop_eq_filter_bind (l : List (Nat × Scene)) :
    renderScenesLoop l =
      (l.filter fun p => (findCamera p.2.graph).isSome).flatMap
        (fun p => [PassEvent.gbufferFill p.1, PassEvent.lighting p.1]) := by
  induction l with
  | nil => simp [renderScenesLoop]
  | cons p rest ih =>
    obtain ⟨j, s⟩ := p
    cases hc : findCamera s.graph with
    | none => simp [renderScenesLoop, hc, List.filter_cons, ih]
    | some c => simp [renderScenesLoop, hc, List.filter_cons, ih]

/-- C7: Every invocation of `render` executes the frame stages in the fixed
order of `specPassOrder`: begin-frame timing; per scene with a camera the
G-Buffer pass immediately followed by that scene's lighting pass; then the
particle pass strictly before the sprite pass; then the final composite
blit; then the UI pass; then the end-of-frame statistics / present /
finalize group. No pass is reordered or executed out of this sequence. -/
theorem render_pass_order
    (r : Renderer) (scenes : List Scene) (uiOk swapOk : Bool)
    (tB tE tF : ℚ) :
    (r.render scenes uiOk swapOk tB tE tF).trace = specPassOrder scenes uiOk := by
  cases uiOk <;>
    simp [Renderer.render, specPassOrder, renderScenesLoop_eq_filter_bind]

theorem endFrame_not_in_renderScenesLoop (l : List (Nat × Scene)) :
    PassEvent.endFrame ∉ renderScenesLoop l ∧
    PassEvent.present ∉ renderScenesLoop l ∧
    PassEvent.finalize ∉ renderScenesLoop l := by
  refine ⟨fun h => ?_, fun h => ?_, fun h => ?_⟩ <;>
    · obtain ⟨i, hi | hi⟩ := mem_renderScenesLoop_shape h <;> cases hi

/-- C2 counterexample: at a concrete frame whose UI pass fails over a
camera-containing scene, the error does propagate to the caller as `Err`
(the propagation half of the claim), but the trace contains neither the
present (buffer-swap) stage nor the statistics end-of-frame stage: the rest
of the frame is aborted, the frame is not presented and is not counted in
statistics. -/
theorem render_uiError_not_presented :
    (testRenderer.render [⟨[Node.camera 0]⟩] false true 0 0 0).result =
      Except.error RendererError.uiRenderError ∧
    PassEvent.present ∉
      (testRenderer.render [⟨[Node.camera 0]⟩] false true 0 0 0).trace ∧
    PassEvent.endFrame ∉
      (testRenderer.render [⟨[Node.camera 0]⟩] false true 0 0 0).trace := by
  refine ⟨rfl, ?_, ?_⟩ <;> · intro h; revert h; decide

/-- C2 amended: when the UI compositing pass fails for a frame, the error
propagates to the caller of `render` as an `Err` result, and the rest of
that frame is aborted with it: the statistics end-of-frame accounting, the
buffer swap (present) and the statistics finalize are all skipped, and no
log line is emitted; the passes up to and including the UI pass have
already run. -/
theorem render_uiError_propagates
    (r : Renderer) (scenes : List Scene) (swapOk : Bool) (tB tE tF : ℚ) :
    (r.render scenes false swapOk tB tE tF).result =
      Except.error RendererError.uiRenderError ∧
    PassEvent.endFrame ∉ (r.render scenes false swapOk tB tE tF).trace ∧
    PassEvent.present ∉ (r.render scenes false swapOk tB tE tF).trace ∧
    PassEvent.finalize ∉ (r.render scenes false swapOk tB tE tF).trace ∧
    (r.render scenes false swapOk tB tE tF).logs = [] ∧
    PassEvent.uiPass ∈ (r.render scenes false swapOk tB tE tF).trace := by
  obtain ⟨h1, h2, h3⟩ := endFrame_not_in_renderScenesLoop scenes.enum
  simp [Renderer.render, List.mem_cons, List.mem_append, h1, h2, h3]

/-- C6: a failure of the backend buffer swap at the present stage is
non-fatal and logged: with a successful UI pass, `render` with a failing
swap still returns `Ok`, emits the swap-failure log line, and produces
exactly the same successor state and trace as with a successful swap; the
frame is still counted (the statistics are exactly begin/end/finalize
applied at the sampled instants) and the trace still ends with the
end-of-frame, present, and finalize stages, so statistics are finalized
after the failed swap. -/
theorem render_swap_failure_nonfatal
    (r : Renderer) (scenes : List Scene) (tB tE tF : ℚ) :
    (r.render scenes true false tB tE tF).result = Except.ok () ∧
    (r.render scenes true false tB tE tF).logs = ["Failed to swap buffers!"] ∧
    (r.render scenes true false tB tE tF).state =
      (r.render scenes true true tB tE tF).state ∧
    (r.render scenes true false tB tE tF).trace =
      (r.render scenes true true tB tE tF).trace ∧
    (r.render scenes true false tB tE tF).state.statistics =
      (((r.statistics.begin_frame tB).end_frame tE).finalize tF) ∧
    (r.render scenes true false tB tE tF).trace =
      (PassEvent.beginFrame ::
        (renderScenesLoop scenes.enum ++
          [PassEvent.particlePass, PassEvent.spritePass,
           PassEvent.finalBlit, PassEvent.uiPass])) ++
        [PassEvent.endFrame, PassEvent.present, PassEvent.finalize] := by
  simp [Renderer.render]

/-- C3: for every width w > 0 and height h > 0, a successful
`set_frame_size (w, h)` installs a G-Buffer frame target of exactly
(w, h) pixels in the renderer's single target slot, and releases exactly
the stale target from the previous size before any render uses the new
one; a following `render` call uses and keeps that same (w, h) target. -/
theorem set_frame_size_then_render
    (r : Renderer) (w h : Nat) (hw : 0 < w) (hh : 0 < h)
    (scenes : List Scene) (uiOk swapOk : Bool) (tB tE tF : ℚ) :
    (r.set_frame_size (w, h) true).2.1 = Except.ok () ∧
    (r.set_frame_size (w, h) true).1.gbuffer.size = (w, h) ∧
    (r.set_frame_size (w, h) true).2.2 = [r.gbuffer] ∧
    ((r.set_frame_size (w, h) true).1.render scenes uiOk swapOk tB tE
        tF).state.gbuffer =
      (r.set_frame_size (w, h) true).1.gbuffer ∧
    ((r.set_frame_size (w, h) true).1.render scenes uiOk swapOk tB tE
        tF).state.gbuffer.size = (w, h) := by
  cases uiOk <;>
    simp [Renderer.set_frame_size, Renderer.render, GBuffer.new]

/-- C3 witness at concrete size (1024, 768). -/
theorem set_frame_size_then_render_witness :
    ((testRenderer.set_frame_size (1024, 768) true).1.render [] true true
        0 0 0).state.gbuffer.size = (1024, 768) :=
  (set_frame_size_then_render testRenderer 1024 768 (by decide) (by decide)
    [] true true 0 0 0).2.2.2.2

/-- C9: `set_frame_size` is not atomic on failure: whether the call returns
`Ok` or `Err`, the stored frame size reported by `get_frame_size` equals
the requested size; on a G-Buffer recreation error the old G-Buffer stays
installed, so whenever the requested size differs from the old target's
size the reported frame size and the installed G-Buffer's size disagree. -/
theorem set_frame_size_not_atomic
    (r : Renderer) (s : Nat × Nat) (ok : Bool) :
    (r.set_frame_size s ok).1.get_frame_size = s ∧
    (ok = false → (r.set_frame_size s ok).1.gbuffer = r.gbuffer) ∧
    (ok = false → s ≠ r.gbuffer.size →
      (r.set_frame_size s ok).1.get_frame_size ≠
        (r.set_frame_size s ok).1.gbuffer.size) := by
  cases ok <;>
    simp [Renderer.set_frame_size, Renderer.get_frame_size, GBuffer.new]

/-- C9 witness: failing resize from (800, 600) to (1, 1) leaves the old
G-Buffer installed while reporting the new size. -/
theorem set_frame_size_not_atomic_witness :
    (testRenderer.set_frame_size (1, 1) false).1.get_frame_size ≠
      (testRenderer.set_frame_size (1, 1) false).1.gbuffer.size :=
  (set_frame_size_not_atomic testRenderer (1, 1) false).2.2 rfl (by decide)

/-! ### Statistics window behavior (C4) -/

theorem end_frame_commit {s : Statistics} {now : ℚ}
    (h : now - s.last_fps_commit_time ≥ 1) :
    s.end_frame now =
      { s with pure_frame_time := now - s.frame_start_time
               frame_counter := 0
               frames_per_second := s.frame_counter + 1
               last_fps_commit_time := now } := by
  simp [Statistics.end_frame, h]

theorem end_frame_no_commit {s : Statistics} {now : ℚ}
    (h : ¬ now - s.last_fps_commit_time ≥ 1) :
    s.end_frame now =
      { s with pure_frame_time := now - s.frame_start_time
               frame_counter := s.frame_counter + 1 } := by
  simp [Statistics.end_frame, h]

/-- A sequence of end-of-frame instants starting from `t0`, each at least
1 second after the previous one. -/
def spaced : ℚ → List ℚ → Prop
  | _, [] => True
  | t0, t :: rest => t0 + 1 ≤ t ∧ spaced t rest

/-- Folding `Statistics::end_frame` over a list of end-of-frame instants
(one `render` frame per instant). -/
def runFrames (s : Statistics) (ts : List ℚ) : Statistics :=
  ts.foldl Statistics.end_frame s

theorem runFrames_spaced (s : Statistics) (t0 : ℚ) (ts : List ℚ)
    (hc : s.frame_counter = 0) (hl : s.last_fps_commit_time = t0)
    (hs : spaced t0 ts) (hne : ts ≠ []) :
    (runFrames s ts).frames_per_second = 1 ∧
    (runFrames s ts).frame_counter = 0 := by
  induction ts generalizing s t0 with
  | nil => exact absurd rfl hne
  | cons t rest ih =>
    have hcond : t - s.last_fps_commit_time ≥ 1 := by
      rw [hl]; linarith [hs.1]
    have hstep := end_frame_commit hcond
    cases rest with
    | nil =>
      simp [runFrames, hstep, hc]
    | cons t1 rest1 =>
      have hfold : runFrames s (t :: t1 :: rest1) =
          runFrames (s.end_frame t) (t1 :: rest1) := rfl
      rw [hfold]
      exact ih (s.end_frame t) t
        (by rw [hstep]) (by rw [hstep]) hs.2 (by simp)

/-- C4: the FPS window of `Statistics`: starting from a
default-constructed record at instant `t0`, (a) rendering frames whose
end-of-frame instants are spaced at least 1 second apart (the first at
least 1 second after construction) commits on every frame, so afterwards
`frames_per_second` equals 1 — the number of frames completed in the most
recent full 1-second window — and the per-window `frame_counter` has been
reset to 0 by the rollover; (b) immediately after the first frame, when
less than 1 second has elapsed since construction, `frames_per_second` is
still 0. -/
theorem statistics_fps_window
    (t0 tb te : ℚ) (ts : List ℚ) (hne : ts ≠ []) (hs : spaced t0 ts)
    (hlt : te - t0 < 1) :
    (runFrames (Statistics.mkDefault t0) ts).frames_per_second = 1 ∧
    (runFrames (Statistics.mkDefault t0) ts).frame_counter = 0 ∧
    (((Statistics.mkDefault t0).begin_frame tb).end_frame
        te).frames_per_second = 0 := by
  obtain ⟨h1, h2⟩ := runFrames_spaced (Statistics.mkDefault t0) t0 ts
    rfl rfl hs hne
  refine ⟨h1, h2, ?_⟩
  have hcond : ¬ te - ((Statistics.mkDefault t0).begin_frame
      tb).last_fps_commit_time ≥ 1 := by
    simp [Statistics.mkDefault, Statistics.begin_frame]
    linarith
  rw [end_frame_no_commit hcond]
  simp [Statistics.mkDefault, Statistics.begin_frame]

/-- C4 witness: construction at 0, one frame ending at 1 gives FPS 1 and
counter 0; a lone first frame ending at instant 0 gives FPS 0. -/
theorem statistics_fps_window_witness :
    (runFrames (Statistics.mkDefault 0) [1]).frames_per_second = 1 ∧
    (((Statistics.mkDefault 0).begin_frame 0).end_frame
        0).frames_per_second = 0 := by
  have h := statistics_fps_window 0 0 0 [1] (by simp)
    (by simp [spaced]) (by simp)
  exact ⟨h.1, h.2.2⟩

/-! ### `upload_resources` (C5, C10) -/

theorem uploadTexture_resident {accepts : Nat → Nat → List Nat → Bool}
    {t t1 : Texture} {n : Nat}
    (h : uploadTexture accepts t = some (t1, n)) :
    uploadTexture accepts t1 = some (t1, 0) := by
  unfold uploadTexture at h ⊢
  cases hg : t.gpu_tex with
  | some g =>
    rw [hg] at h
    obtain ⟨rfl, rfl⟩ := by exact Prod.mk.injEq .. ▸ Option.some.inj h
    simp [hg]
  | none =>
    rw [hg] at h
    cases hn : GpuTexture.new accepts t.width t.height t.bytes with
    | none => rw [hn] at h; cases h
    | some g =>
      rw [hn] at h
      obtain ⟨rfl, rfl⟩ := by exact Prod.mk.injEq .. ▸ Option.some.inj h
      simp

/-- C5: `upload_resources` is idempotent: when a call over the resource
manager's textures succeeds (performing `n` uploads), calling it again on
the resulting textures — no new textures added — succeeds, changes no
texture, and performs exactly zero additional GPU texture uploads, because
it is a no-op for every GPU-resident texture. -/
theorem upload_resources_idempotent
    (accepts : Nat → Nat → List Nat → Bool) (ts ts1 : List Texture) (n : Nat)
    (h : upload_resources accepts ts = some (ts1, n)) :
    upload_resources accepts ts1 = some (ts1, 0) := by
  induction ts generalizing ts1 n with
  | nil =>
    obtain ⟨rfl, rfl⟩ := by
      exact Prod.mk.injEq .. ▸ Option.some.inj (by simpa [upload_resources] using h)
    simp [upload_resources]
  | cons t rest ih =>
    unfold upload_resources at h
    cases hu : uploadTexture accepts t with
    | none => rw [hu] at h; cases h
    | some p =>
      obtain ⟨t1, m⟩ := p
      rw [hu] at h
      cases hr : upload_resources accepts rest with
      | none => rw [hr] at h; cases h
      | some q =>
        obtain ⟨rest1, k⟩ := q
        rw [hr] at h
        obtain ⟨rfl, rfl⟩ := by exact Prod.mk.injEq .. ▸ Option.some.inj h
        have h1 := uploadTexture_resident hu
        have h2 := ih rest1 k hr
        simp [upload_resources, h1, h2]

/-- C5 witness: one fresh texture gets uploaded once; re-running on the
result performs zero uploads. -/
theorem upload_resources_idempotent_witness :
    upload_resources (fun _ _ _ => true)
        [{ width := 2, height := 2, bytes := [7], gpu_tex :=
            some { width := 2, height := 2, bytes := [7],
                   maxAnisotropy := true } }] =
      some ([{ width := 2, height := 2, bytes := [7], gpu_tex :=
            some { width := 2, height := 2, bytes := [7],
                   maxAnisotropy := true } }], 0) :=
  upload_resources_idempotent (fun _ _ _ => true)
    [{ width := 2, height := 2, bytes := [7], gpu_tex := none }] _ 1
    (by decide)

/-- C10: `upload_resources` has no error path at its interface: if any
texture held by the resource manager is not yet GPU-resident and the
backend rejects the creation of its GPU texture, the call aborts the
program (the `unwrap` panic, modelled as `none`) rather than returning an
error, logging it, or skipping the texture. -/
theorem upload_resources_panics_on_failure
    (accepts : Nat → Nat → List Nat → Bool) (ts : List Texture)
    (h : ∃ t ∈ ts, t.gpu_tex = none ∧
        accepts t.width t.height t.bytes = false) :
    upload_resources accepts ts = none := by
  induction ts with
  | nil => simp at h
  | cons t rest ih =>
    obtain ⟨t', ht', hnone, hrej⟩ := h
    rcases List.mem_cons.mp ht' with rfl | hmem
    · simp [upload_resources, uploadTexture, hnone, GpuTexture.new, hrej]
    · have hr := ih ⟨t', hmem, hnone, hrej⟩
      cases hu : uploadTexture accepts t with
      | none => simp [upload_resources, hu]
      | some p => obtain ⟨t1, m⟩ := p; simp [upload_resources, hu, hr]

/-- C10 witness: a single non-resident texture whose creation the backend
rejects makes the whole call abort. -/
theorem upload_resources_panics_on_failure_witness :
    upload_resources (fun _ _ _ => false)
        [{ width := 2, height := 2, bytes := [7], gpu_tex := none }] = none :=
  upload_resources_panics_on_failure (fun _ _ _ => false)
    [{ width := 2, height := 2, bytes := [7], gpu_tex := none }]
    ⟨_, List.mem_cons_self _ _, rfl, rfl⟩

/-! ### Editor particle-system handler mapping (C8) -/

/-- C8: the editor handler maps each particle-system property-change
notification to its corresponding command: texture to
`SetParticleSystemTextureCommand`, acceleration to
`SetParticleSystemAccelerationCommand`, enabled to
`SetParticleSystemEnabledCommand`, soft boundary sharpness factor to
`SetSoftBoundarySharpnessFactorCommand`, and emitter removal at index `i`
to `DeleteEmitterCommand` with index `i`; emitter addition opens the
emitter-selector window; an unrecognized property name produces no
command (only the unhandled-property log for object fields, nothing for
collection fields). -/
theorem particle_system_handler_mapping
    (node : Nat) (t : Option Nat) (v : Vec3) (b : Bool) (f : ℚ) (i : Nat)
    (name : String) (value : ObjectValue) (changed : CollectionChanged)
    (h1 : name ≠ ParticleSystem.TEXTURE)
    (h2 : name ≠ ParticleSystem.ACCELERATION)
    (h3 : name ≠ ParticleSystem.ENABLED)
    (h4 : name ≠ ParticleSystem.SOFT_BOUNDARY_SHARPNESS_FACTOR)
    (h5 : name ≠ ParticleSystem.EMITTERS) :
    ParticleSystemHandler.handle node
        ⟨ParticleSystem.TEXTURE, .object (.textureOpt t)⟩ =
      some [.doSceneCommand (.setParticleSystemTexture node t)] ∧
    ParticleSystemHandler.handle node
        ⟨ParticleSystem.ACCELERATION, .object (.vector v)⟩ =
      some [.doSceneCommand (.setParticleSystemAcceleration node v)] ∧
    ParticleSystemHandler.handle node
        ⟨ParticleSystem.ENABLED, .object (.boolean b)⟩ =
      some [.doSceneCommand (.setParticleSystemEnabled node b)] ∧
    ParticleSystemHandler.handle node
        ⟨ParticleSystem.SOFT_BOUNDARY_SHARPNESS_FACTOR,
          .object (.float f)⟩ =
      some [.doSceneCommand (.setSoftBoundarySharpnessFactor node f)] ∧
    ParticleSystemHandler.handle node
        ⟨ParticleSystem.EMITTERS, .collection (.remove i)⟩ =
      some [.doSceneCommand (.deleteEmitter node i)] ∧
    ParticleSystemHandler.handle node
        ⟨ParticleSystem.EMITTERS, .collection .add⟩ =
      some [.openSelectorWindow] ∧
    ParticleSystemHandler.handle node ⟨name, .object value⟩ =
      some [.logUnhandled] ∧
    ParticleSystemHandler.handle node ⟨name, .collection changed⟩ =
      some [] := by
  have h1' : name ≠ "texture" := by simpa [ParticleSystem.TEXTURE] using h1
  have h2' : name ≠ "acceleration" := by
    simpa [ParticleSystem.ACCELERATION] using h2
  have h3' : name ≠ "enabled" := by simpa [ParticleSystem.ENABLED] using h3
  have h4' : name ≠ "soft_boundary_sharpness_factor" := by
    simpa [ParticleSystem.SOFT_BOUNDARY_SHARPNESS_FACTOR] using h4
  have h5' : name ≠ "emitters" := by simpa [ParticleSystem.EMITTERS] using h5
  refine ⟨?_, ?_, ?_, ?_, ?_, ?_, ?_, ?_⟩ <;>
    simp [ParticleSystemHandler.handle, ObjectValue.castTextureOpt,
      ObjectValue.castVec3, ObjectValue.castBool, ObjectValue.castFloat,
      ParticleSystem.TEXTURE, ParticleSystem.ACCELERATION,
      ParticleSystem.ENABLED, ParticleSystem.SOFT_BOUNDARY_SHARPNESS_FACTOR,
      ParticleSystem.EMITTERS, h1', h2', h3', h4', h5']

/-- C8 witness: a property named "lifetime" (none of the handled names)
produces no command, only the unhandled-property log. -/
theorem particle_system_handler_mapping_witness :
    ParticleSystemHandler.handle 3
        ⟨"lifetime", .object (.float 1)⟩ = some [.logUnhandled] :=
  (particle_system_handler_mapping 3 none ⟨0, 0, 0⟩ true 1 0 "lifetime"
    (.float 1) .add (by decide) (by decide) (by decide) (by decide)
    (by decide)).2.2.2.2.2.2.1

end Rg3d
